import Mathlib

/-!
Shallow embedding of `ask-sdk-core/ask_sdk_core/response_helper.py`.

Python strings are modelled as `List Char`; `None`-able strings as
`Option (List Char)`.  `str.strip()` is `pyStrip`, `str.startswith` /
`str.endswith` are `List.isPrefixOf` / `List.isSuffixOf`, and the Python
slice `s[7:-8]` is `(s.drop 7).take (s.length - 15)` (both are empty on
strings shorter than 15, and agree elsewhere).

The `Response` object and its collaborators (`SsmlOutputSpeech`,
`Reprompt`, `Card`, `Directive`, `TextContent`, `PlainText`/`RichText`)
are modelled as records with exactly the fields the helper reads and
writes.  `ResponseFactory` methods mutate `self.response`, so each is a
pure function `Response → ... → Response`.  The `ValueError` raised by
`__set_text_field` is modelled with `Except`, the error value being the
message string.
-/

/-- The characters stripped by Python's `str.strip()` (ASCII whitespace). -/
def pyIsSpace (c : Char) : Bool :=
  c == ' ' || c == '\t' || c == '\n' || c == '\r' || c == '\x0b' || c == '\x0c'

/-- Left part of Python's `str.strip()`. -/
def lstrip (l : List Char) : List Char := l.dropWhile pyIsSpace

/-- Right part of Python's `str.strip()`. -/
def rstrip (l : List Char) : List Char := (l.reverse.dropWhile pyIsSpace).reverse

/-- Python's `str.strip()` with no argument. -/
def pyStrip (l : List Char) : List Char := rstrip (lstrip l)

/-- The opening root SSML tag used by `speak`/`ask` wrapping. -/
def speakOpen : List Char := "<speak>".toList

/-- The closing root SSML tag used by `speak`/`ask` wrapping. -/
def speakClose : List Char := "</speak>".toList

/-- `ask_sdk_model.ui.SsmlOutputSpeech`: the helper only writes `ssml`. -/
structure SsmlOutputSpeech where
  ssml : List Char
deriving DecidableEq

/-- `ask_sdk_model.ui.Reprompt`: the helper only writes `output_speech`. -/
structure Reprompt where
  output_speech : SsmlOutputSpeech
deriving DecidableEq

/-- `ask_sdk_model.ui.Card`: opaque to the helper (`set_card` stores it verbatim);
a single abstract field keeps distinct cards distinguishable. -/
structure Card where
  content : Nat
deriving DecidableEq

/-- `ask_sdk_model.Directive`: the helper reads only `object_type`; `payload`
keeps otherwise-identical directives distinguishable, as Python objects are. -/
structure Directive where
  object_type : List Char
  payload : Nat
deriving DecidableEq

/-- The sentinel `"VideoApp.Launch"` compared against `directive.object_type`. -/
def videoAppLaunchType : List Char := "VideoApp.Launch".toList

/-- `ask_sdk_model.Response`: the five fields the factory reads/writes,
all initialized to `None`.  A directive slot may itself hold `None`,
since `add_directive(None)` appends `None`. -/
structure Response where
  output_speech : Option SsmlOutputSpeech
  card : Option Card
  reprompt : Option Reprompt
  directives : Option (List (Option Directive))
  should_end_session : Option Bool
deriving DecidableEq

namespace ResponseFactory

/-- `ResponseFactory.__init__`: `Response` with all parameters `None`. -/
def construct : Response :=
  Response.mk none none none none none

/-- `ResponseFactory.__trim_outputspeech`: returns `""` for `None`, strips
whitespace, and removes one redundant outer `<speak>...</speak>` pair
(the slice `speech[7:-8]` followed by `.strip()`). -/
def trim_outputspeech (speech_output : Option (List Char)) : List Char :=
  match speech_output with
  | none => []
  | some so =>
    let speech := pyStrip so
    if speakOpen.isPrefixOf speech && speakClose.isSuffixOf speech then
      pyStrip ((speech.drop 7).take (speech.length - 15))
    else
      speech

/-- `ResponseFactory.speak`: stores `"<speak>{trimmed}</speak>"` in
`output_speech`. -/
def speak (r : Response) (speech : Option (List Char)) : Response :=
  let ssml := speakOpen ++ trim_outputspeech speech ++ speakClose
  { r with output_speech := some (SsmlOutputSpeech.mk ssml) }

/-- The loop-body test of `__is_video_app_launch_directive_present`:
`directive is not None and directive.object_type == "VideoApp.Launch"`. -/
def isVideoDirectiveSlot (d : Option Directive) : Bool :=
  match d with
  | some dd => dd.object_type == videoAppLaunchType
  | none => false

/-- The body of `__is_video_app_launch_directive_present` as a function of
the `directives` field: `False` when the field is `None`, otherwise a scan
of the list. -/
def videoPresentIn (ds : Option (List (Option Directive))) : Bool :=
  match ds with
  | none => false
  | some l => l.any isVideoDirectiveSlot

/-- `ResponseFactory.__is_video_app_launch_directive_present`. -/
def is_video_app_launch_directive_present (r : Response) : Bool :=
  videoPresentIn r.directives

/-- `ResponseFactory.ask`: stores the trimmed/wrapped reprompt, then sets
`should_end_session` to `False` unless a `VideoApp.Launch` directive is
present. -/
def ask (r : Response) (reprompt : Option (List Char)) : Response :=
  let ssml := speakOpen ++ trim_outputspeech reprompt ++ speakClose
  let r1 : Response := { r with reprompt := some (Reprompt.mk (SsmlOutputSpeech.mk ssml)) }
  if is_video_app_launch_directive_present r1 then r1
  else { r1 with should_end_session := some false }

/-- `ResponseFactory.set_card`: assigns the card verbatim. -/
def set_card (r : Response) (card : Card) : Response :=
  { r with card := some card }

/-- `ResponseFactory.add_directive`: initializes `directives` to `[]` when
`None`, resets `should_end_session` to `None` when the new directive is a
`VideoApp.Launch` directive, then appends the directive. -/
def add_directive (r : Response) (directive : Option Directive) : Response :=
  let ds := r.directives.getD []
  let sess : Option Bool :=
    match directive with
    | some d =>
      if d.object_type == videoAppLaunchType then none
      else r.should_end_session
    | none => r.should_end_session
  { r with directives := some (ds ++ [directive]), should_end_session := sess }

/-- `ResponseFactory.set_should_end_session`: sets the tri-state flag unless
a `VideoApp.Launch` directive is present. -/
def set_should_end_session (r : Response) (should_end_session : Option Bool) :
    Response :=
  if is_video_app_launch_directive_present r then r
  else { r with should_end_session := should_end_session }

/-- One builder call, for stating invariants over call sequences. -/
inductive Op where
  | speak (speech : Option (List Char))
  | ask (reprompt : Option (List Char))
  | set_card (card : Card)
  | add_directive (directive : Option Directive)
  | set_should_end_session (b : Option Bool)

/-- Apply one builder call to the owned response. -/
def applyOp (r : Response) (op : Op) : Response :=
  match op with
  | .speak s => speak r s
  | .ask s => ask r s
  | .set_card c => set_card r c
  | .add_directive d => add_directive r d
  | .set_should_end_session b => set_should_end_session r b

/-- Run a sequence of builder calls starting from a fresh factory. -/
def run (ops : List Op) : Response := ops.foldl applyOp construct

end ResponseFactory

/-- Module constant `PLAIN_TEXT_TYPE = "PlainText"`. -/
def PLAIN_TEXT_TYPE : List Char := "PlainText".toList

/-- Module constant `RICH_TEXT_TYPE = "RichText"`. -/
def RICH_TEXT_TYPE : List Char := "RichText".toList

/-- `ask_sdk_model.interfaces.display.PlainText` / `RichText`: the typed
text values stored in a `TextContent` field. -/
inductive TextField where
  | plainText (text : List Char)
  | richText (text : List Char)
deriving DecidableEq

/-- `ask_sdk_model.interfaces.display.TextContent`: three optional typed
text fields, all unset at construction. -/
structure TextContent where
  primary_text : Option TextField
  secondary_text : Option TextField
  tertiary_text : Option TextField
deriving DecidableEq

deriving instance DecidableEq for Except

/-- Python truthiness for an optional string: `None` and `""` are falsy. -/
def truthyStr (t : Option (List Char)) : Bool :=
  match t with
  | none => false
  | some s => !s.isEmpty

/-- `__set_text_field`: raises `ValueError("Invalid type provided: {}")`
when the text is truthy and the type is neither `PlainText` nor
`RichText`; otherwise builds the typed text value (or `None` for falsy
text). -/
def set_text_field (text : Option (List Char)) (text_type : List Char) :
    Except (List Char) (Option TextField) :=
  if truthyStr text then
    if text_type ≠ PLAIN_TEXT_TYPE ∧ text_type ≠ RICH_TEXT_TYPE then
      Except.error ("Invalid type provided: ".toList ++ text_type)
    else if text_type = PLAIN_TEXT_TYPE then
      Except.ok (some (TextField.plainText (text.getD [])))
    else
      Except.ok (some (TextField.richText (text.getD [])))
  else
    Except.ok none

/-- One field of `get_text_content`: the source assigns the field only when
the text is truthy (`if primary_text:`), leaving the constructor default
`None` otherwise. -/
def fieldResult (text : Option (List Char)) (text_type : List Char) :
    Except (List Char) (Option TextField) :=
  if truthyStr text then set_text_field text text_type else Except.ok none

/-- `get_text_content`: builds a `TextContent`, assigning each truthy text
field in order (primary, secondary, tertiary); the first invalid type
paired with truthy text raises. -/
def get_text_content (primary_text : Option (List Char))
    (primary_text_type : List Char) (secondary_text : Option (List Char))
    (secondary_text_type : List Char) (tertiary_text : Option (List Char))
    (tertiary_text_type : List Char) : Except (List Char) TextContent :=
  match fieldResult primary_text primary_text_type with
  | .error e => .error e
  | .ok p =>
    match fieldResult secondary_text secondary_text_type with
    | .error e => .error e
    | .ok s =>
      match fieldResult tertiary_text tertiary_text_type with
      | .error e => .error e
      | .ok t => .ok (TextContent.mk p s t)

/-- `get_plain_text_content`: delegates with all types `PLAIN_TEXT_TYPE`. -/
def get_plain_text_content (primary_text : Option (List Char))
    (secondary_text : Option (List Char)) (tertiary_text : Option (List Char)) :
    Except (List Char) TextContent :=
  get_text_content primary_text PLAIN_TEXT_TYPE secondary_text PLAIN_TEXT_TYPE
    tertiary_text PLAIN_TEXT_TYPE

/-- `get_rich_text_content`: delegates with all types `RICH_TEXT_TYPE`. -/
def get_rich_text_content (primary_text : Option (List Char))
    (secondary_text : Option (List Char)) (tertiary_text : Option (List Char)) :
    Except (List Char) TextContent :=
  get_text_content primary_text RICH_TEXT_TYPE secondary_text RICH_TEXT_TYPE
    tertiary_text RICH_TEXT_TYPE

/-- Stripping does nothing on a string starting with a non-space character. -/
theorem lstrip_cons_of_not_space (c : Char) (t : List Char) (h : pyIsSpace c = false) :
    lstrip (c :: t) = c :: t := by
  simp [lstrip, List.dropWhile_cons, h]

/-- Stripping does nothing on a string ending with a non-space character. -/
theorem rstrip_append_of_not_space (t : List Char) (c : Char) (h : pyIsSpace c = false) :
    rstrip (t ++ [c]) = t ++ [c] := by
  simp [rstrip, List.dropWhile_cons, h]

/-- `pyStrip` is the identity on a string with non-space first and last
characters. -/
theorem pyStrip_no_space_ends (m : List Char) (c₁ c₂ : Char)
    (h₁ : pyIsSpace c₁ = false) (h₂ : pyIsSpace c₂ = false) :
    pyStrip (c₁ :: (m ++ [c₂])) = c₁ :: (m ++ [c₂]) := by
  unfold pyStrip
  rw [lstrip_cons_of_not_space _ _ h₁]
  rw [show c₁ :: (m ++ [c₂]) = (c₁ :: m) ++ [c₂] from rfl]
  rw [rstrip_append_of_not_space _ _ h₂]

/-- A string wrapped in the root SSML tags is untouched by `pyStrip`. -/
theorem pyStrip_wrapped (x : List Char) :
    pyStrip (speakOpen ++ x ++ speakClose) = speakOpen ++ x ++ speakClose := by
  have e : speakOpen ++ x ++ speakClose
      = '<' :: (("speak>".toList ++ x ++ "</speak".toList) ++ ['>']) := by
    rw [show speakOpen = '<' :: "speak>".toList from rfl,
      show speakClose = "</speak".toList ++ ['>'] from by decide]
    simp [List.append_assoc]
  rw [e, pyStrip_no_space_ends _ _ _ (by decide) (by decide)]

/-- `__trim_outputspeech` removes exactly one outer `<speak>...</speak>`
pair and strips the whitespace immediately inside it. -/
theorem trim_outputspeech_wrap (x : List Char) :
    ResponseFactory.trim_outputspeech (some (speakOpen ++ x ++ speakClose))
      = pyStrip x := by
  unfold ResponseFactory.trim_outputspeech
  simp only [pyStrip_wrapped]
  have hpre : speakOpen.isPrefixOf (speakOpen ++ x ++ speakClose) = true := by
    rw [List.isPrefixOf_iff_prefix, List.append_assoc]
    exact List.prefix_append _ _
  have hsuf : speakClose.isSuffixOf (speakOpen ++ x ++ speakClose) = true := by
    rw [List.isSuffixOf_iff_suffix]
    exact List.suffix_append _ _
  rw [hpre, hsuf]
  simp only [Bool.and_self, if_true]
  have hd : (speakOpen ++ x ++ speakClose).drop 7 = x ++ speakClose := by
    rw [List.append_assoc, show (7 : Nat) = speakOpen.length from by decide,
      List.drop_left]
  have hlen : (speakOpen ++ x ++ speakClose).length - 15 = x.length := by
    have h1 : speakOpen.length = 7 := by decide
    have h2 : speakClose.length = 8 := by decide
    simp [List.length_append, h1, h2]
    omega
  rw [hd, hlen, List.take_left x speakClose]

/-- `__trim_outputspeech` only strips outer whitespace when the stripped
string is not wrapped in the root SSML tags. -/
theorem trim_outputspeech_not_wrapped (s : List Char)
    (h : (speakOpen.isPrefixOf (pyStrip s) && speakClose.isSuffixOf (pyStrip s)) = false) :
    ResponseFactory.trim_outputspeech (some s) = pyStrip s := by
  simp only [ResponseFactory.trim_outputspeech]
  rw [h]
  simp

/-- Appending a directive slot extends the presence scan disjunctively. -/
theorem videoPresentIn_append (ds : Option (List (Option Directive)))
    (d : Option Directive) :
    ResponseFactory.videoPresentIn (some (ds.getD [] ++ [d]))
      = (ResponseFactory.videoPresentIn ds || ResponseFactory.isVideoDirectiveSlot d) := by
  cases ds with
  | none => simp [ResponseFactory.videoPresentIn]
  | some l => simp [ResponseFactory.videoPresentIn, List.any_append]

/-- `add_directive` changes the presence flag exactly by the new slot. -/
theorem is_video_add_directive (r : Response) (d : Option Directive) :
    ResponseFactory.is_video_app_launch_directive_present
        (ResponseFactory.add_directive r d)
      = (ResponseFactory.is_video_app_launch_directive_present r
          || ResponseFactory.isVideoDirectiveSlot d) := by
  unfold ResponseFactory.is_video_app_launch_directive_present
    ResponseFactory.add_directive
  exact videoPresentIn_append r.directives d

/-- `ask` sets `should_end_session` to `False` exactly when no
`VideoApp.Launch` directive is present. -/
theorem ask_should_end_session (r : Response) (t : Option (List Char)) :
    (ResponseFactory.ask r t).should_end_session
      = (if ResponseFactory.is_video_app_launch_directive_present r
          then r.should_end_session else some false) := by
  simp only [ResponseFactory.ask, ResponseFactory.is_video_app_launch_directive_present]
  split <;> simp_all

/-- `ask` leaves the `directives` field unchanged. -/
theorem ask_directives (r : Response) (t : Option (List Char)) :
    (ResponseFactory.ask r t).directives = r.directives := by
  simp only [ResponseFactory.ask]
  split <;> rfl

/-- `set_should_end_session` writes the flag exactly when no
`VideoApp.Launch` directive is present. -/
theorem set_should_end_session_flag (r : Response) (b : Option Bool) :
    (ResponseFactory.set_should_end_session r b).should_end_session
      = (if ResponseFactory.is_video_app_launch_directive_present r
          then r.should_end_session else b) := by
  simp only [ResponseFactory.set_should_end_session]
  split <;> rfl

/-- `set_should_end_session` leaves the `directives` field unchanged. -/
theorem set_should_end_session_directives (r : Response) (b : Option Bool) :
    (ResponseFactory.set_should_end_session r b).directives = r.directives := by
  simp only [ResponseFactory.set_should_end_session]
  split <;> rfl

/-- The C1 invariant: whenever a `VideoApp.Launch` directive is present,
`should_end_session` reads as unset. -/
def SessInv (r : Response) : Prop :=
  ResponseFactory.is_video_app_launch_directive_present r = true →
    r.should_end_session = none

/-- Every builder call preserves the C1 invariant. -/
theorem sessInv_applyOp (r : Response) (op : ResponseFactory.Op) (h : SessInv r) :
    SessInv (ResponseFactory.applyOp r op) := by
  cases op with
  | speak s => exact h
  | set_card c => exact h
  | ask s =>
    intro hv
    rw [ResponseFactory.applyOp] at hv ⊢
    rw [ask_should_end_session]
    have hdir : ResponseFactory.is_video_app_launch_directive_present r = true := by
      rw [show ResponseFactory.is_video_app_launch_directive_present r
            = ResponseFactory.is_video_app_launch_directive_present
                (ResponseFactory.ask r s) from by
        unfold ResponseFactory.is_video_app_launch_directive_present
        rw [ask_directives]]
      exact hv
    rw [hdir, if_pos rfl]
    exact h hdir
  | add_directive d =>
    intro hv
    rw [ResponseFactory.applyOp] at hv ⊢
    rw [is_video_add_directive] at hv
    cases hd : ResponseFactory.isVideoDirectiveSlot d with
    | true =>
      cases d with
      | none => simp [ResponseFactory.isVideoDirectiveSlot] at hd
      | some dd =>
        simp only [ResponseFactory.isVideoDirectiveSlot] at hd
        simp [ResponseFactory.add_directive, hd]
    | false =>
      rw [hd, Bool.or_false] at hv
      have hsess : r.should_end_session = none := h hv
      cases d with
      | none => simpa [ResponseFactory.add_directive] using hsess
      | some dd =>
        simp only [ResponseFactory.isVideoDirectiveSlot] at hd
        simpa [ResponseFactory.add_directive, hd] using hsess
  | set_should_end_session b =>
    intro hv
    rw [ResponseFactory.applyOp] at hv ⊢
    rw [set_should_end_session_flag]
    have hdir : ResponseFactory.is_video_app_launch_directive_present r = true := by
      rw [show ResponseFactory.is_video_app_launch_directive_present r
            = ResponseFactory.is_video_app_launch_directive_present
                (ResponseFactory.set_should_end_session r b) from by
        unfold ResponseFactory.is_video_app_launch_directive_present
        rw [set_should_end_session_directives]]
      exact hv
    rw [hdir, if_pos rfl]
    exact h hdir

/-- The C1 invariant holds after any sequence of builder calls from any
state satisfying it. -/
theorem sessInv_foldl (ops : List ResponseFactory.Op) :
    ∀ r : Response, SessInv r → SessInv (ops.foldl ResponseFactory.applyOp r) := by
  induction ops with
  | nil => exact fun r h => h
  | cons op rest ih =>
    intro r h
    exact ih _ (sessInv_applyOp r op h)

example : ResponseFactory.trim_outputspeech (some "<speak>hello</speak>".toList)
    = "hello".toList := by decide

example : ResponseFactory.trim_outputspeech
    (some "<speak><speak>hi</speak></speak>".toList)
    = "<speak>hi</speak>".toList := by decide

example : ResponseFactory.trim_outputspeech (some "  hi  ".toList)
    = "hi".toList := by decide

example : (ResponseFactory.speak ResponseFactory.construct none).output_speech
    = some ⟨"<speak></speak>".toList⟩ := by decide

example : get_text_content (some "x".toList) "bogus".toList none
    PLAIN_TEXT_TYPE none PLAIN_TEXT_TYPE
    = .error ("Invalid type provided: bogus".toList) := by decide

/-- C1: whenever a `VideoApp.Launch` directive is present among the
response's directives after any sequence of builder calls from
`construct()`, `should_end_session` reads as unset (`None`); in
particular `add_directive` with such a directive immediately resets any
previously set boolean to unset. -/
theorem c1_video_directive_forces_unset_end_session :
    (∀ ops : List ResponseFactory.Op,
      ResponseFactory.is_video_app_launch_directive_present
          (ResponseFactory.run ops) = true →
        (ResponseFactory.run ops).should_end_session = none)
    ∧ (∀ (r : Response) (d : Directive),
        d.object_type = videoAppLaunchType →
          (ResponseFactory.add_directive r (some d)).should_end_session = none) := by
  constructor
  · intro ops
    have hinit : SessInv ResponseFactory.construct := by
      intro h
      exact absurd h (by decide)
    exact sessInv_foldl ops ResponseFactory.construct hinit
  · intro r d h
    simp [ResponseFactory.add_directive, h]

/-- C1 witness: a video-launch directive added after
`set_should_end_session(True)` leaves the flag unset, and later `ask` and
`set_should_end_session` calls do not make it concrete. -/
theorem c1_video_directive_forces_unset_end_session_witness :
    (ResponseFactory.is_video_app_launch_directive_present
        (ResponseFactory.run
          [ResponseFactory.Op.set_should_end_session (some true),
           ResponseFactory.Op.add_directive (some (Directive.mk "VideoApp.Launch".toList 0)),
           ResponseFactory.Op.ask (some "hi".toList),
           ResponseFactory.Op.set_should_end_session (some true)]) = true
      ∧ (ResponseFactory.run
          [ResponseFactory.Op.set_should_end_session (some true),
           ResponseFactory.Op.add_directive (some (Directive.mk "VideoApp.Launch".toList 0)),
           ResponseFactory.Op.ask (some "hi".toList),
           ResponseFactory.Op.set_should_end_session (some true)]).should_end_session = none)
    ∧ ((Directive.mk "VideoApp.Launch".toList 0).object_type = videoAppLaunchType
      ∧ (ResponseFactory.add_directive
          (ResponseFactory.set_should_end_session ResponseFactory.construct (some true))
          (some (Directive.mk "VideoApp.Launch".toList 0))).should_end_session = none) :=
  ⟨⟨by decide,
    c1_video_directive_forces_unset_end_session.1
      [ResponseFactory.Op.set_should_end_session (some true),
       ResponseFactory.Op.add_directive (some (Directive.mk "VideoApp.Launch".toList 0)),
       ResponseFactory.Op.ask (some "hi".toList),
       ResponseFactory.Op.set_should_end_session (some true)] (by decide)⟩,
   ⟨by decide,
    c1_video_directive_forces_unset_end_session.2
      (ResponseFactory.set_should_end_session ResponseFactory.construct (some true))
      (Directive.mk "VideoApp.Launch".toList 0) (by decide)⟩⟩

/-- C2: `speak(t)` stores exactly `"<speak>" + trim(t) + "</speak>"`,
where `trim` maps absent input to `""`, strips outer whitespace, and
removes one redundant outer `<speak>...</speak>` pair (with the
whitespace just inside it) non-recursively; `speak(None)` and
`speak("")` both store `"<speak></speak>"`. -/
theorem c2_speak_wraps_trimmed_speech :
    (∀ (r : Response) (t : Option (List Char)),
      (ResponseFactory.speak r t).output_speech
        = some (SsmlOutputSpeech.mk
            (speakOpen ++ ResponseFactory.trim_outputspeech t ++ speakClose)))
    ∧ ResponseFactory.trim_outputspeech none = []
    ∧ (∀ x : List Char,
        ResponseFactory.trim_outputspeech (some (speakOpen ++ x ++ speakClose))
          = pyStrip x)
    ∧ (∀ s : List Char,
        (speakOpen.isPrefixOf (pyStrip s) && speakClose.isSuffixOf (pyStrip s)) = false →
          ResponseFactory.trim_outputspeech (some s) = pyStrip s)
    ∧ ResponseFactory.trim_outputspeech (some "<speak><speak>hi</speak></speak>".toList)
        = "<speak>hi</speak>".toList
    ∧ (∀ r : Response,
        (ResponseFactory.speak r none).output_speech
            = some (SsmlOutputSpeech.mk "<speak></speak>".toList)
          ∧ (ResponseFactory.speak r (some [])).output_speech
            = some (SsmlOutputSpeech.mk "<speak></speak>".toList)) := by
  refine ⟨fun r t => rfl, rfl, trim_outputspeech_wrap,
    trim_outputspeech_not_wrapped, by decide, fun r => ⟨rfl, rfl⟩⟩

/-- C2 witness: a plain string is wrapped as-is after whitespace
stripping. -/
theorem c2_speak_wraps_trimmed_speech_witness :
    (speakOpen.isPrefixOf (pyStrip "hi".toList)
        && speakClose.isSuffixOf (pyStrip "hi".toList)) = false
      ∧ ResponseFactory.trim_outputspeech (some "hi".toList) = pyStrip "hi".toList :=
  ⟨by decide,
   c2_speak_wraps_trimmed_speech.2.2.2.1 "hi".toList (by decide)⟩

/-- C4: `ask(t)` sets the reprompt to the same trimmed/wrapped speech as
`speak`, and sets `should_end_session` to `False` exactly when no
`VideoApp.Launch` directive is present, leaving it untouched otherwise. -/
theorem c4_ask_sets_reprompt_and_flag :
    ∀ (r : Response) (t : Option (List Char)),
      (ResponseFactory.ask r t).reprompt
        = some (Reprompt.mk (SsmlOutputSpeech.mk
            (speakOpen ++ ResponseFactory.trim_outputspeech t ++ speakClose)))
      ∧ (ResponseFactory.ask r t).should_end_session
        = (if ResponseFactory.is_video_app_launch_directive_present r
            then r.should_end_session else some false) := by
  intro r t
  refine ⟨?_, ask_should_end_session r t⟩
  simp only [ResponseFactory.ask]
  split <;> rfl

/-- C5: a speech string already wrapped in the root SSML tags is never
double-wrapped: `speak("<speak>hello</speak>")` and `speak("hello")`
store the same value, and wrapping an unwrapped payload before calling
`speak` or `ask` changes nothing. -/
theorem c5_no_double_wrapping :
    (∀ r : Response,
      ResponseFactory.speak r (some "<speak>hello</speak>".toList)
          = ResponseFactory.speak r (some "hello".toList)
        ∧ (ResponseFactory.speak r (some "hello".toList)).output_speech
          = some (SsmlOutputSpeech.mk "<speak>hello</speak>".toList))
    ∧ (∀ (r : Response) (x : List Char),
        (speakOpen.isPrefixOf (pyStrip x) && speakClose.isSuffixOf (pyStrip x)) = false →
          ResponseFactory.speak r (some (speakOpen ++ x ++ speakClose))
              = ResponseFactory.speak r (some x)
            ∧ ResponseFactory.ask r (some (speakOpen ++ x ++ speakClose))
              = ResponseFactory.ask r (some x)) := by
  constructor
  · intro r
    have h : ResponseFactory.trim_outputspeech (some "<speak>hello</speak>".toList)
        = ResponseFactory.trim_outputspeech (some "hello".toList) := by decide
    exact ⟨by simp only [ResponseFactory.speak, h], rfl⟩
  · intro r x hx
    have h : ResponseFactory.trim_outputspeech (some (speakOpen ++ x ++ speakClose))
        = ResponseFactory.trim_outputspeech (some x) := by
      rw [trim_outputspeech_wrap, trim_outputspeech_not_wrapped x hx]
    exact ⟨by simp only [ResponseFactory.speak, h],
      by simp only [ResponseFactory.ask, h]⟩

/-- C5 witness: wrapping the unwrapped payload `"bye"` before `speak` or
`ask` leaves the built response unchanged. -/
theorem c5_no_double_wrapping_witness :
    (speakOpen.isPrefixOf (pyStrip "bye".toList)
        && speakClose.isSuffixOf (pyStrip "bye".toList)) = false
      ∧ (ResponseFactory.speak ResponseFactory.construct
            (some (speakOpen ++ "bye".toList ++ speakClose))
          = ResponseFactory.speak ResponseFactory.construct (some "bye".toList)
        ∧ ResponseFactory.ask ResponseFactory.construct
            (some (speakOpen ++ "bye".toList ++ speakClose))
          = ResponseFactory.ask ResponseFactory.construct (some "bye".toList)) :=
  ⟨by decide,
   c5_no_double_wrapping.2 ResponseFactory.construct "bye".toList (by decide)⟩

/-- A field raises exactly when its text is truthy and its type tag is
neither `PlainText` nor `RichText`. -/
theorem fieldResult_error_iff (t : Option (List Char)) (ty : List Char) :
    (∃ e, fieldResult t ty = Except.error e)
      ↔ (truthyStr t = true ∧ ty ≠ PLAIN_TEXT_TYPE ∧ ty ≠ RICH_TEXT_TYPE) := by
  unfold fieldResult set_text_field
  by_cases h : truthyStr t = true
  · simp only [h, if_true, true_and]
    split_ifs with hinv hp <;> simp_all
  · simp only [h]
    simp [Bool.not_eq_true] at h
    simp [h]

/-- A field with a truthy-implies-valid type tag always succeeds, with the
value dictated by truthiness and the tag. -/
theorem fieldResult_eq (t : Option (List Char)) (ty : List Char)
    (h : truthyStr t = true → ty = PLAIN_TEXT_TYPE ∨ ty = RICH_TEXT_TYPE) :
    fieldResult t ty = Except.ok
      (if truthyStr t then
        (if ty = PLAIN_TEXT_TYPE then some (TextField.plainText (t.getD []))
         else some (TextField.richText (t.getD [])))
       else none) := by
  unfold fieldResult set_text_field
  by_cases htr : truthyStr t = true
  · rcases h htr with hp | hr
    · subst hp
      simp [htr]
    · subst hr
      have hne : RICH_TEXT_TYPE ≠ PLAIN_TEXT_TYPE := by decide
      simp [htr, hne]
  · simp [htr]

/-- `get_text_content` succeeds whenever every type tag paired with truthy
text is one of the two recognized values. -/
theorem get_text_content_ok_of_valid (pt : Option (List Char)) (ptt : List Char)
    (st : Option (List Char)) (stt : List Char)
    (tt : Option (List Char)) (ttt : List Char)
    (h1 : truthyStr pt = true → ptt = PLAIN_TEXT_TYPE ∨ ptt = RICH_TEXT_TYPE)
    (h2 : truthyStr st = true → stt = PLAIN_TEXT_TYPE ∨ stt = RICH_TEXT_TYPE)
    (h3 : truthyStr tt = true → ttt = PLAIN_TEXT_TYPE ∨ ttt = RICH_TEXT_TYPE) :
    get_text_content pt ptt st stt tt ttt = Except.ok
      (TextContent.mk
        (if truthyStr pt then
          (if ptt = PLAIN_TEXT_TYPE then some (TextField.plainText (pt.getD []))
           else some (TextField.richText (pt.getD [])))
         else none)
        (if truthyStr st then
          (if stt = PLAIN_TEXT_TYPE then some (TextField.plainText (st.getD []))
           else some (TextField.richText (st.getD [])))
         else none)
        (if truthyStr tt then
          (if ttt = PLAIN_TEXT_TYPE then some (TextField.plainText (tt.getD []))
           else some (TextField.richText (tt.getD [])))
         else none)) := by
  unfold get_text_content
  simp only [fieldResult_eq pt ptt h1, fieldResult_eq st stt h2, fieldResult_eq tt ttt h3]

/-- C3: `get_text_content` raises an invalid-argument error exactly when
some supplied text is non-empty and its paired type tag is outside the
two recognized values; the error names the invalid tag; an invalid tag
paired with absent or empty text raises nothing, and the delegating
helpers never raise. -/
theorem c3_error_iff_invalid_type :
    (∀ (pt : Option (List Char)) (ptt : List Char) (st : Option (List Char))
       (stt : List Char) (tt : Option (List Char)) (ttt : List Char),
      (∃ e, get_text_content pt ptt st stt tt ttt = Except.error e)
        ↔ ((truthyStr pt = true ∧ ptt ≠ PLAIN_TEXT_TYPE ∧ ptt ≠ RICH_TEXT_TYPE)
          ∨ (truthyStr st = true ∧ stt ≠ PLAIN_TEXT_TYPE ∧ stt ≠ RICH_TEXT_TYPE)
          ∨ (truthyStr tt = true ∧ ttt ≠ PLAIN_TEXT_TYPE ∧ ttt ≠ RICH_TEXT_TYPE)))
    ∧ get_text_content (some "x".toList) "bogus".toList none PLAIN_TEXT_TYPE
        none PLAIN_TEXT_TYPE
        = Except.error ("Invalid type provided: bogus".toList)
    ∧ get_text_content none "bogus".toList (some []) "bogus".toList none "bogus".toList
        = Except.ok (TextContent.mk none none none)
    ∧ (∀ p s t, ∃ tc, get_plain_text_content p s t = Except.ok tc)
    ∧ (∀ p s t, ∃ tc, get_rich_text_content p s t = Except.ok tc) := by
  refine ⟨?_, by decide, by decide, ?_, ?_⟩
  · intro pt ptt st stt tt ttt
    constructor
    · rintro ⟨e, he⟩
      unfold get_text_content at he
      cases h1 : fieldResult pt ptt with
      | error e1 => exact Or.inl ((fieldResult_error_iff pt ptt).mp ⟨e1, h1⟩)
      | ok p =>
        rw [h1] at he
        cases h2 : fieldResult st stt with
        | error e2 => exact Or.inr (Or.inl ((fieldResult_error_iff st stt).mp ⟨e2, h2⟩))
        | ok s =>
          rw [h2] at he
          cases h3 : fieldResult tt ttt with
          | error e3 =>
            exact Or.inr (Or.inr ((fieldResult_error_iff tt ttt).mp ⟨e3, h3⟩))
          | ok t =>
            rw [h3] at he
            exact absurd he (by simp)
    · intro hbad
      unfold get_text_content
      rcases hbad with hb | hb | hb
      · obtain ⟨e, he⟩ := (fieldResult_error_iff pt ptt).mpr hb
        rw [he]
        exact ⟨e, rfl⟩
      · cases h1 : fieldResult pt ptt with
        | error e1 => exact ⟨e1, rfl⟩
        | ok p =>
          obtain ⟨e, he⟩ := (fieldResult_error_iff st stt).mpr hb
          rw [he]
          exact ⟨e, rfl⟩
      · cases h1 : fieldResult pt ptt with
        | error e1 => exact ⟨e1, rfl⟩
        | ok p =>
          cases h2 : fieldResult st stt with
          | error e2 => exact ⟨e2, rfl⟩
          | ok s =>
            obtain ⟨e, he⟩ := (fieldResult_error_iff tt ttt).mpr hb
            rw [he]
            exact ⟨e, rfl⟩
  · intro p s t
    exact ⟨_, get_text_content_ok_of_valid p PLAIN_TEXT_TYPE s PLAIN_TEXT_TYPE
      t PLAIN_TEXT_TYPE (fun _ => Or.inl rfl) (fun _ => Or.inl rfl) (fun _ => Or.inl rfl)⟩
  · intro p s t
    exact ⟨_, get_text_content_ok_of_valid p RICH_TEXT_TYPE s RICH_TEXT_TYPE
      t RICH_TEXT_TYPE (fun _ => Or.inr rfl) (fun _ => Or.inr rfl) (fun _ => Or.inr rfl)⟩

/-- C6: each `TextContent` field is unset for absent or empty text, and
for non-empty text with a recognized tag it carries exactly the supplied
text, tagged plain or rich according to the tag. -/
theorem c6_text_content_fields :
    ∀ (pt : Option (List Char)) (ptt : List Char) (st : Option (List Char))
      (stt : List Char) (tt : Option (List Char)) (ttt : List Char),
      (truthyStr pt = true → ptt = PLAIN_TEXT_TYPE ∨ ptt = RICH_TEXT_TYPE) →
      (truthyStr st = true → stt = PLAIN_TEXT_TYPE ∨ stt = RICH_TEXT_TYPE) →
      (truthyStr tt = true → ttt = PLAIN_TEXT_TYPE ∨ ttt = RICH_TEXT_TYPE) →
      get_text_content pt ptt st stt tt ttt = Except.ok
        (TextContent.mk
          (if truthyStr pt then
            (if ptt = PLAIN_TEXT_TYPE then some (TextField.plainText (pt.getD []))
             else some (TextField.richText (pt.getD [])))
           else none)
          (if truthyStr st then
            (if stt = PLAIN_TEXT_TYPE then some (TextField.plainText (st.getD []))
             else some (TextField.richText (st.getD [])))
           else none)
          (if truthyStr tt then
            (if ttt = PLAIN_TEXT_TYPE then some (TextField.plainText (tt.getD []))
             else some (TextField.richText (tt.getD [])))
           else none)) :=
  fun pt ptt st stt tt ttt h1 h2 h3 =>
    get_text_content_ok_of_valid pt ptt st stt tt ttt h1 h2 h3

/-- C6 witness: non-empty texts with recognized tags are stored tagged and
verbatim; the empty third text leaves its field unset even with a bogus
tag. -/
theorem c6_text_content_fields_witness :
    (truthyStr (some "a".toList) = true →
        PLAIN_TEXT_TYPE = PLAIN_TEXT_TYPE ∨ PLAIN_TEXT_TYPE = RICH_TEXT_TYPE)
      ∧ (truthyStr (some "b".toList) = true →
        RICH_TEXT_TYPE = PLAIN_TEXT_TYPE ∨ RICH_TEXT_TYPE = RICH_TEXT_TYPE)
      ∧ (truthyStr (some []) = true →
        "bogus".toList = PLAIN_TEXT_TYPE ∨ "bogus".toList = RICH_TEXT_TYPE)
      ∧ get_text_content (some "a".toList) PLAIN_TEXT_TYPE (some "b".toList)
          RICH_TEXT_TYPE (some []) "bogus".toList
        = Except.ok (TextContent.mk (some (TextField.plainText "a".toList))
            (some (TextField.richText "b".toList)) none) :=
  ⟨by decide, by decide, by decide, by
    have h := c6_text_content_fields (some "a".toList) PLAIN_TEXT_TYPE
      (some "b".toList) RICH_TEXT_TYPE (some []) "bogus".toList
      (by decide) (by decide) (by decide)
    exact h.trans (by decide)⟩

/-- C7: the plain helper equals `get_text_content` with all tags
`PlainText`, and the rich helper equals it with all tags `RichText`, so
every set field of the rich helper is tagged rich text. -/
theorem c7_plain_and_rich_delegate :
    (∀ p s t, get_plain_text_content p s t
        = get_text_content p PLAIN_TEXT_TYPE s PLAIN_TEXT_TYPE t PLAIN_TEXT_TYPE)
    ∧ (∀ p s t, get_rich_text_content p s t
        = get_text_content p RICH_TEXT_TYPE s RICH_TEXT_TYPE t RICH_TEXT_TYPE)
    ∧ get_rich_text_content (some "a".toList) none none
        = Except.ok (TextContent.mk (some (TextField.richText "a".toList)) none none)
    ∧ get_plain_text_content (some "a".toList) (some "b".toList) none
        = Except.ok (TextContent.mk (some (TextField.plainText "a".toList))
            (some (TextField.plainText "b".toList)) none) :=
  ⟨fun p s t => rfl, fun p s t => rfl, by decide, by decide⟩

/-- C8: `add_directive` appends at the end of the directives sequence,
initializing it to empty when unset; order is preserved and duplicates
are allowed, so adding A, B, A yields [A, B, A]. -/
theorem c8_add_directive_appends_in_order :
    (∀ (r : Response) (d : Option Directive),
      (ResponseFactory.add_directive r d).directives
        = some (r.directives.getD [] ++ [d]))
    ∧ (∀ A B : Option Directive,
        (ResponseFactory.add_directive (ResponseFactory.add_directive
          (ResponseFactory.add_directive ResponseFactory.construct A) B) A).directives
          = some [A, B, A]) := by
  refine ⟨fun r d => rfl, fun A B => ?_⟩
  simp [ResponseFactory.add_directive, ResponseFactory.construct]

/-- C9: each builder call leaves every response field other than its
designated targets unchanged: `speak` touches only `output_speech`,
`set_card` only `card`, `ask` only `reprompt` and `should_end_session`,
`add_directive` only `directives` and `should_end_session`, and
`set_should_end_session` only `should_end_session`. -/
theorem c9_frame_conditions :
    ∀ (r : Response) (t : Option (List Char)) (c : Card) (d : Option Directive)
      (b : Option Bool),
      ((ResponseFactory.speak r t).card = r.card
        ∧ (ResponseFactory.speak r t).reprompt = r.reprompt
        ∧ (ResponseFactory.speak r t).directives = r.directives
        ∧ (ResponseFactory.speak r t).should_end_session = r.should_end_session)
      ∧ ((ResponseFactory.set_card r c).output_speech = r.output_speech
        ∧ (ResponseFactory.set_card r c).reprompt = r.reprompt
        ∧ (ResponseFactory.set_card r c).directives = r.directives
        ∧ (ResponseFactory.set_card r c).should_end_session = r.should_end_session)
      ∧ ((ResponseFactory.ask r t).output_speech = r.output_speech
        ∧ (ResponseFactory.ask r t).card = r.card
        ∧ (ResponseFactory.ask r t).directives = r.directives)
      ∧ ((ResponseFactory.add_directive r d).output_speech = r.output_speech
        ∧ (ResponseFactory.add_directive r d).card = r.card
        ∧ (ResponseFactory.add_directive r d).reprompt = r.reprompt)
      ∧ ((ResponseFactory.set_should_end_session r b).output_speech = r.output_speech
        ∧ (ResponseFactory.set_should_end_session r b).card = r.card
        ∧ (ResponseFactory.set_should_end_session r b).reprompt = r.reprompt
        ∧ (ResponseFactory.set_should_end_session r b).directives = r.directives) := by
  intro r t c d b
  refine ⟨⟨rfl, rfl, rfl, rfl⟩, ⟨rfl, rfl, rfl, rfl⟩, ⟨?_, ?_, ask_directives r t⟩,
    ⟨rfl, rfl, rfl⟩, ⟨?_, ?_, ?_, set_should_end_session_directives r b⟩⟩
  all_goals simp only [ResponseFactory.ask, ResponseFactory.set_should_end_session]
  all_goals split <;> rfl

/-- C10: `add_directive(None)` appends `None` without raising and without
resetting `should_end_session`, and `None` entries are never treated as
media-launch directives, so they never suppress `ask` or
`set_should_end_session`. -/
theorem c10_none_directive_handling :
    ∀ r : Response,
      (ResponseFactory.add_directive r none).directives
          = some (r.directives.getD [] ++ [none])
        ∧ (ResponseFactory.add_directive r none).should_end_session
          = r.should_end_session
        ∧ ResponseFactory.is_video_app_launch_directive_present
            (ResponseFactory.add_directive r none)
          = ResponseFactory.is_video_app_launch_directive_present r
        ∧ (ResponseFactory.ask (ResponseFactory.add_directive
            ResponseFactory.construct none) (some "hi".toList)).should_end_session
          = some false
        ∧ (ResponseFactory.set_should_end_session (ResponseFactory.add_directive
            ResponseFactory.construct none) (some true)).should_end_session
          = some true := by
  intro r
  refine ⟨rfl, rfl, ?_, by decide, by decide⟩
  rw [is_video_add_directive]
  simp [ResponseFactory.isVideoDirectiveSlot]
